import Mathlib

/-!
Shallow embedding of `src/dev/src/transaction.ts` (the Firestore client-side
transaction coordinator): the read-before-write gate (`Transaction.get`,
`Transaction.getAll`), `getAll` argument parsing (`parseGetAllArguments`,
`validateReadOptions`), error classification (`isRetryableTransactionError`),
and the retry orchestrator (`Transaction.runTransaction`, `Transaction.maybeBackoff`).

Collaborators that live in files outside `src/` (the backoff policy, the
argument validators, `FieldPath`) are modelled from the spec; each such
definition carries a doc comment starting with `Modelled from the spec:`.
-/

set_option autoImplicit false

namespace FirestoreTx

/-- The gRPC status codes from google-gax's `Status` enum, in their standard order. -/
inductive Status where
  | OK
  | CANCELLED
  | UNKNOWN
  | INVALID_ARGUMENT
  | DEADLINE_EXCEEDED
  | NOT_FOUND
  | ALREADY_EXISTS
  | PERMISSION_DENIED
  | RESOURCE_EXHAUSTED
  | FAILED_PRECONDITION
  | ABORTED
  | OUT_OF_RANGE
  | UNIMPLEMENTED
  | INTERNAL
  | UNAVAILABLE
  | DATA_LOSS
  | UNAUTHENTICATED
  deriving DecidableEq, Repr

/-- A JavaScript error as the transaction code sees it: a `GoogleError` carries an
optional gRPC status code (`code` may be `undefined`) and a message. Local errors
thrown with `new Error(msg)` have `code = none`. -/
structure GError where
  code : Option Status
  msg : String
  deriving DecidableEq, Repr

/-- `READ_AFTER_WRITE_ERROR_MSG` from transaction.ts, verbatim. -/
def READ_AFTER_WRITE_ERROR_MSG : String :=
  "Firestore transactions require all reads to be executed before all writes."

/-- The error thrown by `Transaction.get` / `Transaction.getAll` when a write has
already been buffered: `new Error(READ_AFTER_WRITE_ERROR_MSG)`. -/
def readAfterWriteError : GError := ⟨none, READ_AFTER_WRITE_ERROR_MSG⟩

/-- `isRetryableTransactionError` from transaction.ts: a switch over `error.code`
(after an `undefined` check) returning `true` exactly for the eight listed codes. -/
def isRetryableTransactionError (error : GError) : Bool :=
  match error.code with
  | some Status.ABORTED => true
  | some Status.CANCELLED => true
  | some Status.UNKNOWN => true
  | some Status.DEADLINE_EXCEEDED => true
  | some Status.INTERNAL => true
  | some Status.UNAVAILABLE => true
  | some Status.UNAUTHENTICATED => true
  | some Status.RESOURCE_EXHAUSTED => true
  | some _ => false
  | none => false

/-- State of the write accumulator (`UpdateBuilder`, an external collaborator):
the transaction only consults `this.isEmpty`, i.e. whether any write operation has
been recorded in the current attempt. We track the number of recorded writes. -/
structure UpdateBuilderState where
  writeCount : Nat
  deriving DecidableEq, Repr

/-- `UpdateBuilder.isEmpty`: whether no write has been recorded yet. -/
def UpdateBuilderState.isEmpty (st : UpdateBuilderState) : Bool :=
  st.writeCount == 0

/-- Modelled from the spec: a `FieldPath` (path.ts is not under `src/`) names a
document field; `FieldPath.fromArgument` converts a field-mask entry into one. -/
structure FieldPath where
  formattedName : String
  deriving DecidableEq, Repr

/-- Modelled from the spec: `FieldPath.fromArgument` wraps a string entry as a field path. -/
def FieldPath.fromArgument (s : String) : FieldPath := ⟨s⟩

/-- A `ReadOptions` object: may carry a `fieldMask` array of field-path strings. -/
structure ReadOptions where
  fieldMask : Option (List String)
  deriving DecidableEq, Repr

/-- One element of the `getAll(...)` varargs list: a `DocumentReference` (identified
by its path), a plain read-options object, or a raw JavaScript array (the legacy
call shape that `parseGetAllArguments` rejects). -/
inductive GetAllArg where
  | docRef (name : String)
  | opts (o : ReadOptions)
  | rawArray (elems : List String)
  deriving DecidableEq, Repr

/-- `isPlainObject` from util.ts as it applies to a `getAll` argument: true exactly
for a plain options object (class instances and arrays are not plain objects). -/
def isPlainObject : GetAllArg → Bool
  | .opts _ => true
  | _ => false

/-- The error thrown when the first `getAll` argument is a raw array. -/
def getAllArrayError : GError :=
  ⟨none, "getAll() no longer accepts an array as its first argument. Please unpack your array and call getAll() with individual arguments."⟩

/-- Modelled from the spec: `validateDocumentReference` (reference.ts is not under
`src/`) accepts exactly document references and otherwise fails with an
`InvalidArgument` error naming the positional index. -/
def validateDocumentReference (i : Nat) (a : GetAllArg) : Except GError String :=
  match a with
  | .docRef n => .ok n
  | _ => .error ⟨none, "Value for argument at index " ++ toString i ++ " is not a valid DocumentReference."⟩

/-- The loop `for (let i = 0; i < documents.length; ++i) validateDocumentReference(i, documents[i])`
in `parseGetAllArguments`, collecting the validated reference names. -/
def validateDocumentReferences (i : Nat) : List GetAllArg → Except GError (List String)
  | [] => .ok []
  | a :: rest =>
    match validateDocumentReference i a with
    | .error e => .error e
    | .ok n =>
      match validateDocumentReferences (i + 1) rest with
      | .error e => .error e
      | .ok ns => .ok (n :: ns)

/-- Modelled from the spec: `validateFieldPath` (path.ts is not under `src/`): a
field-mask entry must be convertible to a field path; the empty string is not. -/
def validateFieldPath (i : Nat) (s : String) : Except GError Unit :=
  if s = "" then
    .error ⟨none, "Element at index " ++ toString i ++ " is not a valid field path."⟩
  else .ok ()

/-- The `for` loop inside `validateReadOptions` over `options.fieldMask`, wrapping a
failed entry's message as in the source. -/
def validateFieldMaskEntries (i : Nat) : List String → Except GError Unit
  | [] => .ok ()
  | s :: rest =>
    match validateFieldPath i s with
    | .error e =>
      .error ⟨none, "Value for argument \"options\" is not a valid read option. \"fieldMask\" is not valid: " ++ e.msg⟩
    | .ok _ => validateFieldMaskEntries (i + 1) rest

/-- `validateReadOptions` from transaction.ts: an omitted options object is fine;
otherwise, if a `fieldMask` is present each of its entries must be a valid field
path. (The `isObject` and `Array.isArray` checks always pass in this typed model.) -/
def validateReadOptions (value : Option ReadOptions) : Except GError Unit :=
  match value with
  | none => .ok ()
  | some o =>
    match o.fieldMask with
    | none => .ok ()
    | some entries => validateFieldMaskEntries 0 entries

/-- `parseGetAllArguments` from transaction.ts: reject a raw array in first
position; pop a trailing plain options object; validate every remaining argument
as a document reference; validate the read options; convert the field mask. -/
def parseGetAllArguments (args : List GetAllArg) :
    Except GError (List String × Option (List FieldPath)) :=
  match args.head? with
  | some (.rawArray _) => .error getAllArrayError
  | _ =>
    let split : List GetAllArg × Option ReadOptions :=
      match args.getLast? with
      | some (.opts o) => (args.dropLast, some o)
      | _ => (args, none)
    match validateDocumentReferences 0 split.1 with
    | .error e => .error e
    | .ok docs =>
      match validateReadOptions split.2 with
      | .error e => .error e
      | .ok _ =>
        let fieldMask : Option (List FieldPath) :=
          match split.2 with
          | some o =>
            match o.fieldMask with
            | some entries => some (entries.map FieldPath.fromArgument)
            | none => none
          | none => none
        .ok (docs, fieldMask)

/-- Modelled from the spec: `validateMinNumberOfArguments` (validate.ts is not under
`src/`) fails with an `InvalidArgument` error when fewer than `minCount` arguments
were supplied; the call site passes the whole varargs list. -/
def validateMinNumberOfArguments (funcName : String) (args : List GetAllArg)
    (minCount : Nat) : Except GError Unit :=
  if args.length < minCount then
    .error ⟨none, "Function " ++ funcName ++ "() requires at least " ++ toString minCount ++ " argument."⟩
  else .ok ()

/-- The argument to `Transaction.get`: a `DocumentReference`, a `Query` (identified
by an opaque description), or a value that is neither. -/
inductive RefOrQuery where
  | ref (name : String)
  | query (q : String)
  | invalid
  deriving DecidableEq, Repr

/-- The read RPC that `Transaction.get` would issue: either a batched document read
(`getAll_`) or a query execution, scoped to the transaction. -/
inductive ReadRpc where
  | getAllRpc (documents : List String) (fieldMask : Option (List FieldPath))
  | queryRpc (q : String)
  deriving DecidableEq, Repr

/-- `Transaction.get` from transaction.ts: throws the read-after-write error when
the write batch is non-empty (before any RPC), then dispatches on the argument:
a `DocumentReference` becomes a single-document `getAll_` call with a null field
mask, a `Query` executes through `_get`, anything else is an argument error.
The `Except` value is the RPC the method goes on to issue; an `.error` result
means the method throws synchronously and no RPC is issued. -/
def Transaction.get (st : UpdateBuilderState) (refOrQuery : RefOrQuery) :
    Except GError ReadRpc :=
  if st.isEmpty = false then .error readAfterWriteError
  else
    match refOrQuery with
    | .ref n => .ok (.getAllRpc [n] none)
    | .query q => .ok (.queryRpc q)
    | .invalid =>
      .error ⟨none, "Value for argument \"refOrQuery\" must be a DocumentReference or a Query."⟩

/-- The batched-read RPC that `Transaction.getAll` would issue. -/
structure GetAllRpc where
  documents : List String
  fieldMask : Option (List FieldPath)
  deriving DecidableEq, Repr

/-- `Transaction.getAll` from transaction.ts: throws the read-after-write error when
the write batch is non-empty, then checks the minimum argument count, then parses
the varargs list; on success the parsed documents and field mask are handed to the
`getAll_` RPC. An `.error` result means the method throws and no RPC is issued. -/
def Transaction.getAll (st : UpdateBuilderState) (args : List GetAllArg) :
    Except GError GetAllRpc :=
  if st.isEmpty = false then .error readAfterWriteError
  else
    match validateMinNumberOfArguments "Transaction.getAll" args 1 with
    | .error e => .error e
    | .ok _ =>
      match parseGetAllArguments args with
      | .error e => .error e
      | .ok (docs, fieldMask) => .ok ⟨docs, fieldMask⟩

/-- Modelled from the spec: the `ExponentialBackoff` policy (backoff.ts is not under
`src/`). Per the spec it "computes increasing delay intervals and can be forced to
its maximum delay", the delay "grows exponentially per attempt", and "the very first
attempt never waits": the current delay starts at 0, each wait returns the current
delay and then advances it (to the initial delay, then doubling, capped at the
maximum), and `resetToMax` forces the maximum delay. -/
structure ExponentialBackoff where
  currentDelayMs : Nat
  deriving DecidableEq, Repr

/-- Modelled from the spec: the policy's default initial delay in milliseconds. -/
def DEFAULT_BACKOFF_INITIAL_DELAY_MS : Nat := 1000

/-- Modelled from the spec: the policy's maximum delay in milliseconds. -/
def DEFAULT_BACKOFF_MAX_DELAY_MS : Nat := 60000

/-- Modelled from the spec: wait for the current interval and advance the policy. -/
def ExponentialBackoff.backoffAndWait (b : ExponentialBackoff) :
    Nat × ExponentialBackoff :=
  (b.currentDelayMs,
    ⟨if b.currentDelayMs = 0 then DEFAULT_BACKOFF_INITIAL_DELAY_MS
      else min (b.currentDelayMs * 2) DEFAULT_BACKOFF_MAX_DELAY_MS⟩)

/-- Modelled from the spec: force the policy to its maximum delay. -/
def ExponentialBackoff.resetToMax (_ : ExponentialBackoff) : ExponentialBackoff :=
  ⟨DEFAULT_BACKOFF_MAX_DELAY_MS⟩

/-- `Transaction.maybeBackoff` from transaction.ts: if the previous attempt's error
has code RESOURCE_EXHAUSTED, reset the backoff to its maximum first; then wait for
the next interval. Returns the waited delay and the updated policy state. -/
def Transaction.maybeBackoff (b : ExponentialBackoff) (error : Option GError) :
    Nat × ExponentialBackoff :=
  let b1 :=
    match error with
    | some e => if e.code = some Status.RESOURCE_EXHAUSTED then b.resetToMax else b
    | none => b
  b1.backoffAndWait

/-- Observable events of one `runTransaction` run, in order: the accumulator reset,
the backoff wait (with its delay), each RPC, and each invocation of the user's work
function. -/
inductive Ev where
  | reset
  | backoffWait (delayMs : Nat)
  | beginRpc
  | workCall
  | commitRpc
  | rollbackRpc
  deriving DecidableEq, Repr

/-- The behaviour of one invocation of the user's work function: its promise
resolves, its promise rejects (or it throws) with an error, or it returns a plain
non-promise value. -/
inductive WorkResult where
  | resolved
  | err (e : GError)
  | nonPromise
  deriving DecidableEq, Repr

/-- What the environment (server plus user code) does on one attempt: the outcome
of the begin RPC, of the work function, of the commit RPC and of the rollback RPC
(`none` = success for the RPCs). -/
structure AttemptEnv where
  beginResult : Option GError
  work : WorkResult
  commitResult : Option GError
  rollbackResult : Option GError

/-- The promise returned by `runTransaction`: resolved, or rejected with a value
that is either a `GoogleError` or `undefined` (`reject none`). -/
inductive TxOutcome where
  | success
  | reject (e : Option GError)
  deriving DecidableEq, Repr

/-- The error thrown when the work function returns a non-promise value, verbatim
from transaction.ts. It is a local `Error` with no status code. -/
def nonPromiseError : GError :=
  ⟨none, "You must return a Promise in your transaction()-callback."⟩

/-- The retry loop of `Transaction.runTransaction` from transaction.ts, one
recursive step per remaining loop iteration. Each iteration resets the
accumulator, waits via `maybeBackoff lastError`, issues `begin` (a begin failure
propagates out of the `async` function uncaught), invokes the work function,
rejects a non-promise return, commits on success, and on any caught error rolls
back; `await this.rollback()` sits inside the `catch` block with no guard of its
own, so a rollback failure propagates and becomes the rejection value. Otherwise
a retryable error becomes `lastError` for the next iteration and a non-retryable
error is rejected immediately. When the iterations run out, the loop falls
through to `Promise.reject(lastError)`. -/
def runAux (env : Nat → AttemptEnv) :
    Nat → ExponentialBackoff → Option GError → Nat → TxOutcome × List Ev
  | _, _, lastError, 0 => (.reject lastError, [])
  | attempt, b, lastError, r + 1 =>
    let a := env attempt
    let w := Transaction.maybeBackoff b lastError
    let body : TxOutcome × List Ev :=
      match a.beginResult with
      | some e => (.reject (some e), [.beginRpc])
      | none =>
        let tryResult : Except GError Unit × List Ev :=
          match a.work with
          | .nonPromise => (.error nonPromiseError, [.workCall])
          | .err e => (.error e, [.workCall])
          | .resolved =>
            match a.commitResult with
            | none => (.ok (), [.workCall, .commitRpc])
            | some e => (.error e, [.workCall, .commitRpc])
        match tryResult with
        | (.ok _, tr) => (.success, .beginRpc :: tr)
        | (.error e, tr) =>
          match a.rollbackResult with
          | some re => (.reject (some re), .beginRpc :: tr ++ [.rollbackRpc])
          | none =>
            if isRetryableTransactionError e then
              let next := runAux env (attempt + 1) w.2 (some e) r
              (next.1, .beginRpc :: tr ++ [.rollbackRpc] ++ next.2)
            else
              (.reject (some e), .beginRpc :: tr ++ [.rollbackRpc])
    (body.1, .reset :: .backoffWait w.1 :: body.2)

/-- `Transaction.runTransaction` from transaction.ts: run the `for` loop
(`attempt = 0; attempt < maxAttempts; ++attempt`, so `max 0 maxAttempts`
iterations), starting from a fresh `ExponentialBackoff` (delay 0) and
`lastError = undefined`. -/
def Transaction.runTransaction (env : Nat → AttemptEnv) (maxAttempts : Int) :
    TxOutcome × List Ev :=
  runAux env 0 ⟨0⟩ none maxAttempts.toNat

/-- The eight retryable status codes, in the order of the `switch` in
`isRetryableTransactionError`. -/
def retryableCodes : List Status :=
  [Status.ABORTED, Status.CANCELLED, Status.UNKNOWN, Status.DEADLINE_EXCEEDED,
    Status.INTERNAL, Status.UNAVAILABLE, Status.UNAUTHENTICATED,
    Status.RESOURCE_EXHAUSTED]

/-- One loop iteration whose work function fails with a retryable error and whose
rollback succeeds: the attempt resets, waits, begins, runs the work function,
rolls back, and continues with the next iteration. -/
theorem runAux_retry_step (env : Nat → AttemptEnv) (att : Nat)
    (b : ExponentialBackoff) (le : Option GError) (r : Nat) (e : GError)
    (hb : (env att).beginResult = none) (hw : (env att).work = .err e)
    (hr : (env att).rollbackResult = none)
    (hret : isRetryableTransactionError e = true) :
    runAux env att b le (r + 1) =
      ((runAux env (att + 1) (Transaction.maybeBackoff b le).2 (some e) r).1,
        Ev.reset :: Ev.backoffWait (Transaction.maybeBackoff b le).1 :: Ev.beginRpc ::
          Ev.workCall :: Ev.rollbackRpc ::
          (runAux env (att + 1) (Transaction.maybeBackoff b le).2 (some e) r).2) := by
  simp [runAux, hb, hw, hr, hret]

/-- One loop iteration whose work function fails with a non-retryable error and
whose rollback succeeds: the run stops, rejecting with that error. -/
theorem runAux_stop_workerr (env : Nat → AttemptEnv) (att : Nat)
    (b : ExponentialBackoff) (le : Option GError) (r : Nat) (e : GError)
    (hb : (env att).beginResult = none) (hw : (env att).work = .err e)
    (hr : (env att).rollbackResult = none)
    (hret : isRetryableTransactionError e = false) :
    runAux env att b le (r + 1) =
      (.reject (some e),
        [Ev.reset, Ev.backoffWait (Transaction.maybeBackoff b le).1, Ev.beginRpc,
          Ev.workCall, Ev.rollbackRpc]) := by
  simp [runAux, hb, hw, hr, hret]

/-- One loop iteration whose work function resolves but whose commit fails with a
non-retryable error, rollback succeeding: the run stops, rejecting with the commit
error. -/
theorem runAux_stop_commiterr (env : Nat → AttemptEnv) (att : Nat)
    (b : ExponentialBackoff) (le : Option GError) (r : Nat) (e : GError)
    (hb : (env att).beginResult = none) (hw : (env att).work = .resolved)
    (hc : (env att).commitResult = some e)
    (hr : (env att).rollbackResult = none)
    (hret : isRetryableTransactionError e = false) :
    runAux env att b le (r + 1) =
      (.reject (some e),
        [Ev.reset, Ev.backoffWait (Transaction.maybeBackoff b le).1, Ev.beginRpc,
          Ev.workCall, Ev.commitRpc, Ev.rollbackRpc]) := by
  simp [runAux, hb, hw, hc, hr, hret]

/-- One loop iteration whose work function fails and whose rollback RPC also
fails: the unguarded `await this.rollback()` inside the `catch` block rethrows,
so the run rejects with the rollback error, whatever the work error was. -/
theorem runAux_rollback_fail (env : Nat → AttemptEnv) (att : Nat)
    (b : ExponentialBackoff) (le : Option GError) (r : Nat) (e re : GError)
    (hb : (env att).beginResult = none) (hw : (env att).work = .err e)
    (hr : (env att).rollbackResult = some re) :
    runAux env att b le (r + 1) =
      (.reject (some re),
        [Ev.reset, Ev.backoffWait (Transaction.maybeBackoff b le).1, Ev.beginRpc,
          Ev.workCall, Ev.rollbackRpc]) := by
  simp [runAux, hb, hw, hr]

/-- One loop iteration whose work function returns a plain non-promise value,
rollback succeeding: the thrown usage error has no status code, so it is not
retryable and the run rejects with it. -/
theorem runAux_nonpromise (env : Nat → AttemptEnv) (att : Nat)
    (b : ExponentialBackoff) (le : Option GError) (r : Nat)
    (hb : (env att).beginResult = none) (hw : (env att).work = .nonPromise)
    (hr : (env att).rollbackResult = none) :
    runAux env att b le (r + 1) =
      (.reject (some nonPromiseError),
        [Ev.reset, Ev.backoffWait (Transaction.maybeBackoff b le).1, Ev.beginRpc,
          Ev.workCall, Ev.rollbackRpc]) := by
  simp [runAux, hb, hw, hr, isRetryableTransactionError, nonPromiseError]

/-- Every executed loop iteration issues a begin RPC, whatever the environment does. -/
theorem beginRpc_mem (env : Nat → AttemptEnv) (att : Nat) (b : ExponentialBackoff)
    (le : Option GError) (r : Nat) (h : 1 ≤ r) :
    Ev.beginRpc ∈ (runAux env att b le r).2 := by
  match r, h with
  | r + 1, _ =>
    simp only [runAux]
    rcases hbe : (env att).beginResult with _ | e
    · rcases hw : (env att).work with _ | e | _
      · rcases hc : (env att).commitResult with _ | e
        · simp [hbe, hw, hc]
        · rcases hr : (env att).rollbackResult with _ | re
          · rcases hret : isRetryableTransactionError e
            · simp [hbe, hw, hc, hr, hret]
            · simp [hbe, hw, hc, hr, hret]
          · simp [hbe, hw, hc, hr]
      · rcases hr : (env att).rollbackResult with _ | re
        · rcases hret : isRetryableTransactionError e
          · simp [hbe, hw, hr, hret]
          · simp [hbe, hw, hr, hret]
        · simp [hbe, hw, hr]
      · rcases hr : (env att).rollbackResult with _ | re
        · simp [hbe, hw, hr, isRetryableTransactionError, nonPromiseError]
        · simp [hbe, hw, hr]
    · simp [hbe]

/-- After a wait, `maybeBackoff` reports a delay at least the initial delay,
provided the policy's current delay had already reached the initial delay. -/
theorem maybeBackoff_fst_ge (b : ExponentialBackoff) (le : Option GError)
    (h : DEFAULT_BACKOFF_INITIAL_DELAY_MS ≤ b.currentDelayMs) :
    DEFAULT_BACKOFF_INITIAL_DELAY_MS ≤ (Transaction.maybeBackoff b le).1 := by
  rcases le with _ | e
  · simpa [Transaction.maybeBackoff, ExponentialBackoff.backoffAndWait] using h
  · simp only [Transaction.maybeBackoff, ExponentialBackoff.backoffAndWait,
      ExponentialBackoff.resetToMax]
    split
    · simp [DEFAULT_BACKOFF_MAX_DELAY_MS, DEFAULT_BACKOFF_INITIAL_DELAY_MS]
    · exact h

/-- After any wait, the policy's stored delay is at least the initial delay (the
only state below the initial delay is the fresh one, which advances to it). -/
theorem maybeBackoff_snd_ge (b : ExponentialBackoff) (le : Option GError)
    (h : b.currentDelayMs = 0 ∨ DEFAULT_BACKOFF_INITIAL_DELAY_MS ≤ b.currentDelayMs) :
    DEFAULT_BACKOFF_INITIAL_DELAY_MS ≤ (Transaction.maybeBackoff b le).2.currentDelayMs := by
  have key : ∀ c : ExponentialBackoff,
      c.currentDelayMs = 0 ∨ DEFAULT_BACKOFF_INITIAL_DELAY_MS ≤ c.currentDelayMs →
      DEFAULT_BACKOFF_INITIAL_DELAY_MS ≤ c.backoffAndWait.2.currentDelayMs := by
    intro c hc
    simp only [ExponentialBackoff.backoffAndWait]
    split
    · exact le_refl _
    · rename_i h0
      have h1 : DEFAULT_BACKOFF_INITIAL_DELAY_MS ≤ c.currentDelayMs := by
        rcases hc with hc | hc
        · exact absurd hc h0
        · exact hc
      simp only [DEFAULT_BACKOFF_INITIAL_DELAY_MS, DEFAULT_BACKOFF_MAX_DELAY_MS] at h1 ⊢
      omega
  rcases le with _ | e
  · exact key b h
  · simp only [Transaction.maybeBackoff]
    split
    · exact key _ (Or.inr (by simp [ExponentialBackoff.resetToMax,
        DEFAULT_BACKOFF_INITIAL_DELAY_MS, DEFAULT_BACKOFF_MAX_DELAY_MS]))
    · exact key b h

/-- Once the backoff policy has advanced past the fresh state, every wait the loop
performs is at least the initial delay. -/
theorem runAux_waits_ge (env : Nat → AttemptEnv) :
    ∀ (r att : Nat) (b : ExponentialBackoff) (le : Option GError),
      DEFAULT_BACKOFF_INITIAL_DELAY_MS ≤ b.currentDelayMs →
      ∀ d : Nat, Ev.backoffWait d ∈ (runAux env att b le r).2 →
        DEFAULT_BACKOFF_INITIAL_DELAY_MS ≤ d := by
  intro r
  induction r with
  | zero =>
    intro att b le hb d hd
    simp [runAux] at hd
  | succ r ih =>
    intro att b le hb d hd
    have hfst := maybeBackoff_fst_ge b le hb
    have hsnd := maybeBackoff_snd_ge b le (Or.inr hb)
    simp only [runAux] at hd
    rcases hbe : (env att).beginResult with _ | e
    · rcases hw : (env att).work with _ | e | _
      · rcases hc : (env att).commitResult with _ | e
        · simp [hbe, hw, hc] at hd
          omega
        · rcases hr : (env att).rollbackResult with _ | re
          · rcases hret : isRetryableTransactionError e
            · simp [hbe, hw, hc, hr, hret] at hd
              omega
            · simp [hbe, hw, hc, hr, hret] at hd
              rcases hd with hd | hd
              · omega
              · exact ih (att + 1) _ (some e) hsnd d hd
          · simp [hbe, hw, hc, hr] at hd
            omega
      · rcases hr : (env att).rollbackResult with _ | re
        · rcases hret : isRetryableTransactionError e
          · simp [hbe, hw, hr, hret] at hd
            omega
          · simp [hbe, hw, hr, hret] at hd
            rcases hd with hd | hd
            · omega
            · exact ih (att + 1) _ (some e) hsnd d hd
        · simp [hbe, hw, hr] at hd
          omega
      · rcases hr : (env att).rollbackResult with _ | re
        · simp [hbe, hw, hr, isRetryableTransactionError, nonPromiseError] at hd
          omega
        · simp [hbe, hw, hr] at hd
          omega
    · simp [hbe] at hd
      omega

/-- Claim C1, counterexample: the claim fixes the read-after-write error message as
"transactions require all reads to be executed before all writes", but the error the
code throws (here for a `get` on a transaction with one buffered write) carries the
message "Firestore transactions require all reads to be executed before all writes."
instead. -/
theorem C1_counterexample :
    Transaction.get ⟨1⟩ (.ref "col/doc") = .error readAfterWriteError ∧
      readAfterWriteError.msg ≠
        "transactions require all reads to be executed before all writes" := by
  constructor
  · rfl
  · decide

/-- Claim C1 (amended): in every transaction attempt, calling `get` or `getAll`
after at least one write has been recorded fails immediately with the ordering
violation error carrying the fixed message "Firestore transactions require all
reads to be executed before all writes.", whatever the read argument is, and no
read RPC is issued (the `.error` result is produced by the synchronous check
before the RPC request is even formed). -/
theorem C1_read_after_write_gate (st : UpdateBuilderState)
    (h : st.isEmpty = false) (q : RefOrQuery) (args : List GetAllArg) :
    Transaction.get st q = .error readAfterWriteError ∧
    Transaction.getAll st args = .error readAfterWriteError ∧
    readAfterWriteError.msg = READ_AFTER_WRITE_ERROR_MSG := by
  refine ⟨?_, ?_, rfl⟩ <;> simp [Transaction.get, Transaction.getAll, h]

/-- Witness for C1: a transaction with one buffered write rejects a document read. -/
theorem C1_read_after_write_gate_witness :
    UpdateBuilderState.isEmpty ⟨1⟩ = false ∧
      Transaction.get ⟨1⟩ (.ref "a") = .error readAfterWriteError :=
  ⟨by decide, (C1_read_after_write_gate ⟨1⟩ (by decide) (.ref "a") []).1⟩

/-- Claim C6, counterexample: calling `getAll` with a single plain read-options
object as its only argument does not fail with `InvalidArgument`: the
minimum-argument check counts arguments (one was supplied), the options object is
popped, and a read RPC with an empty document list is produced. -/
theorem C6_counterexample :
    Transaction.getAll ⟨0⟩ [.opts ⟨none⟩] = .ok ⟨[], none⟩ := by
  rfl

/-- Claim C6 (amended): a `getAll` call supplying zero arguments fails with an
`InvalidArgument` error before any RPC is issued; but when the only argument
supplied is a plain read-options object, the argument-count check passes and a
read RPC with an empty document-reference list is issued. -/
theorem C6_zero_args (st : UpdateBuilderState) (h : st.isEmpty = true) :
    Transaction.getAll st [] =
      .error ⟨none, "Function Transaction.getAll() requires at least 1 argument."⟩ ∧
    Transaction.getAll st [.opts ⟨none⟩] = .ok ⟨[], none⟩ := by
  constructor
  · simp [Transaction.getAll, h, validateMinNumberOfArguments]
    rfl
  · simp [Transaction.getAll, h, validateMinNumberOfArguments, parseGetAllArguments,
      validateDocumentReferences, validateReadOptions]

/-- Witness for C6: the empty-argument call on a fresh transaction. -/
theorem C6_zero_args_witness :
    UpdateBuilderState.isEmpty ⟨0⟩ = true ∧
      Transaction.getAll ⟨0⟩ [] =
        .error ⟨none, "Function Transaction.getAll() requires at least 1 argument."⟩ :=
  ⟨by decide, (C6_zero_args ⟨0⟩ (by decide)).1⟩

/-- Claim C9: `parseGetAllArguments` on `[refA, refB, {fieldMask: ["x"]}]` returns
the documents in input order with the field mask converted to field paths; on
`[refA, refB]` it returns a null field mask; and a raw array in first position
fails with the `InvalidArgument` legacy-shape error. -/
theorem C9_parse_getall_arguments :
    (∀ a b : String,
      parseGetAllArguments [.docRef a, .docRef b, .opts ⟨some ["x"]⟩] =
        .ok ([a, b], some [FieldPath.fromArgument "x"]) ∧
      parseGetAllArguments [.docRef a, .docRef b] = .ok ([a, b], none)) ∧
    (∀ (l : List String) (rest : List GetAllArg),
      parseGetAllArguments (.rawArray l :: rest) = .error getAllArrayError) := by
  constructor
  · intro a b
    constructor <;> rfl
  · intro l rest
    rfl

/-- Claim C2: with a work function failing with an UNAVAILABLE-coded error on
every attempt and `maxAttempts = 3`, `runTransaction` performs exactly 3 begin and
3 rollback RPCs, never commits, and finally rejects with that UNAVAILABLE error. -/
theorem C2_unavailable_exhausts_attempts (env : Nat → AttemptEnv)
    (es : Nat → GError)
    (hb : ∀ i, (env i).beginResult = none)
    (hw : ∀ i, (env i).work = .err (es i))
    (hr : ∀ i, (env i).rollbackResult = none)
    (hc : ∀ i, (es i).code = some Status.UNAVAILABLE) :
    (Transaction.runTransaction env 3).1 = .reject (some (es 2)) ∧
    (Transaction.runTransaction env 3).2.count .beginRpc = 3 ∧
    (Transaction.runTransaction env 3).2.count .rollbackRpc = 3 ∧
    (Transaction.runTransaction env 3).2.count .commitRpc = 0 := by
  have hret : ∀ i, isRetryableTransactionError (es i) = true := by
    intro i
    simp [isRetryableTransactionError, hc i]
  have htrace : Transaction.runTransaction env 3 =
      (.reject (some (es 2)),
        [.reset, .backoffWait 0, .beginRpc, .workCall, .rollbackRpc,
         .reset, .backoffWait 1000, .beginRpc, .workCall, .rollbackRpc,
         .reset, .backoffWait 2000, .beginRpc, .workCall, .rollbackRpc]) := by
    have h0 : Transaction.runTransaction env 3 = runAux env 0 ⟨0⟩ none 3 := rfl
    rw [h0, show (3 : Nat) = 2 + 1 from rfl,
      runAux_retry_step env 0 ⟨0⟩ none 2 (es 0) (hb 0) (hw 0) (hr 0) (hret 0),
      show (2 : Nat) = 1 + 1 from rfl,
      runAux_retry_step env 1 _ _ 1 (es 1) (hb 1) (hw 1) (hr 1) (hret 1),
      runAux_retry_step env 2 _ _ 0 (es 2) (hb 2) (hw 2) (hr 2) (hret 2)]
    simp [runAux, Transaction.maybeBackoff, ExponentialBackoff.backoffAndWait,
      hc 0, hc 1, DEFAULT_BACKOFF_INITIAL_DELAY_MS, DEFAULT_BACKOFF_MAX_DELAY_MS]
  rw [htrace]
  refine ⟨rfl, ?_, ?_, ?_⟩ <;> rfl

/-- An environment whose work function always fails with an UNAVAILABLE error. -/
def c2Env : Nat → AttemptEnv := fun _ =>
  ⟨none, .err ⟨some Status.UNAVAILABLE, "service unavailable"⟩, none, none⟩

/-- Witness for C2 at a concrete always-UNAVAILABLE environment. -/
theorem C2_unavailable_exhausts_attempts_witness :
    (Transaction.runTransaction c2Env 3).1 =
      .reject (some ⟨some Status.UNAVAILABLE, "service unavailable"⟩) :=
  (C2_unavailable_exhausts_attempts c2Env
    (fun _ => ⟨some Status.UNAVAILABLE, "service unavailable"⟩) (fun _ => rfl)
    (fun _ => rfl) (fun _ => rfl) (fun _ => rfl)).1

/-- Counting begin RPCs across one retrying iteration's event prefix. -/
theorem count_beginRpc_retry_cons (x : Nat) (tl : List Ev) :
    (Ev.reset :: Ev.backoffWait x :: Ev.beginRpc :: Ev.workCall ::
      Ev.rollbackRpc :: tl).count Ev.beginRpc = tl.count Ev.beginRpc + 1 := by
  simp [List.count_cons]

/-- Claim C3: an error from the work function or from commit is retryable exactly
when its code is one of the eight listed codes (an error with no code is not
retryable); a non-retryable error ends the run after exactly one begin/rollback
cycle with that error, for every `maxAttempts ≥ 1`; a retryable error (with a
successful rollback) leads to at least a second begin when attempts remain. -/
theorem C3_retry_classification :
    (∀ e : GError,
      isRetryableTransactionError e = true ↔ e.code ∈ retryableCodes.map some) ∧
    (∀ (env : Nat → AttemptEnv) (e : GError) (m : Int), 1 ≤ m →
      (env 0).beginResult = none →
      ((env 0).work = .err e ∨
        ((env 0).work = .resolved ∧ (env 0).commitResult = some e)) →
      (env 0).rollbackResult = none →
      isRetryableTransactionError e = false →
      (Transaction.runTransaction env m).1 = .reject (some e) ∧
      (Transaction.runTransaction env m).2.count .beginRpc = 1 ∧
      (Transaction.runTransaction env m).2.count .rollbackRpc = 1) ∧
    (∀ (env : Nat → AttemptEnv) (e : GError) (m : Int), 2 ≤ m →
      (env 0).beginResult = none → (env 0).work = .err e →
      (env 0).rollbackResult = none →
      isRetryableTransactionError e = true →
      2 ≤ (Transaction.runTransaction env m).2.count .beginRpc) := by
  refine ⟨?_, ?_, ?_⟩
  · rintro ⟨code, msg⟩
    rcases code with _ | c
    · simp [isRetryableTransactionError, retryableCodes]
    · cases c <;> simp [isRetryableTransactionError, retryableCodes]
  · intro env e m hm hb hwc hr hret
    have h1 : m.toNat = (m.toNat - 1) + 1 := by omega
    have hrun : Transaction.runTransaction env m =
        runAux env 0 ⟨0⟩ none ((m.toNat - 1) + 1) := by
      rw [Transaction.runTransaction, ← h1]
    rcases hwc with hw | ⟨hw, hc⟩
    · rw [hrun, runAux_stop_workerr env 0 ⟨0⟩ none _ e hb hw hr hret]
      refine ⟨rfl, ?_, ?_⟩ <;> rfl
    · rw [hrun, runAux_stop_commiterr env 0 ⟨0⟩ none _ e hb hw hc hr hret]
      refine ⟨rfl, ?_, ?_⟩ <;> rfl
  · intro env e m hm hb hw hr hret
    have h1 : m.toNat = (m.toNat - 1) + 1 := by omega
    have h2 : 1 ≤ m.toNat - 1 := by omega
    have hrun : Transaction.runTransaction env m =
        runAux env 0 ⟨0⟩ none ((m.toNat - 1) + 1) := by
      rw [Transaction.runTransaction, ← h1]
    rw [hrun, runAux_retry_step env 0 ⟨0⟩ none _ e hb hw hr hret,
      count_beginRpc_retry_cons]
    have hmem := beginRpc_mem env (0 + 1) (Transaction.maybeBackoff ⟨0⟩ none).2
      (some e) (m.toNat - 1) h2
    have hpos := List.count_pos_iff.mpr hmem
    omega

/-- An environment whose work function always fails with a PERMISSION_DENIED error. -/
def c3Env : Nat → AttemptEnv := fun _ =>
  ⟨none, .err ⟨some Status.PERMISSION_DENIED, "permission denied"⟩, none, none⟩

/-- Witness for C3 at a concrete PERMISSION_DENIED environment with a large budget. -/
theorem C3_retry_classification_witness :
    (Transaction.runTransaction c3Env 5).1 =
      .reject (some ⟨some Status.PERMISSION_DENIED, "permission denied"⟩) ∧
    (Transaction.runTransaction c3Env 5).2.count .beginRpc = 1 :=
  ⟨(C3_retry_classification.2.1 c3Env _ 5 (by decide) rfl (Or.inl rfl) rfl rfl).1,
   (C3_retry_classification.2.1 c3Env _ 5 (by decide) rfl (Or.inl rfl) rfl rfl).2.1⟩

/-- An environment whose work function fails with UNAVAILABLE and whose rollback
RPC itself fails with INTERNAL. -/
def c4Env : Nat → AttemptEnv := fun _ =>
  ⟨none, .err ⟨some Status.UNAVAILABLE, "server unavailable"⟩, none,
    some ⟨some Status.INTERNAL, "rollback failed"⟩⟩

/-- Claim C4, counterexample: with a retryable UNAVAILABLE work error on attempt 1
and a failing rollback, `runTransaction` rejects with the rollback's INTERNAL
error — the rollback failure replaces the triggering error, which the claim says
can never happen. -/
theorem C4_counterexample :
    (Transaction.runTransaction c4Env 3).1 =
      .reject (some ⟨some Status.INTERNAL, "rollback failed"⟩) ∧
    (⟨some Status.INTERNAL, "rollback failed"⟩ : GError) ≠
      ⟨some Status.UNAVAILABLE, "server unavailable"⟩ ∧
    (c4Env 0).work = .err ⟨some Status.UNAVAILABLE, "server unavailable"⟩ := by
  refine ⟨by decide, by decide, rfl⟩

/-- Claim C4 (amended): a failure of the rollback RPC does mask the triggering
error — `await this.rollback()` is unguarded inside the `catch` block, so when
rollback fails `runTransaction` rejects immediately with the rollback error,
whatever the work-function error was; only when rollback succeeds is the
decision (here: immediate rejection of a non-retryable error) determined by the
triggering error. -/
theorem C4_rollback_error_handling :
    (∀ (env : Nat → AttemptEnv) (e re : GError) (m : Int), 1 ≤ m →
      (env 0).beginResult = none → (env 0).work = .err e →
      (env 0).rollbackResult = some re →
      (Transaction.runTransaction env m).1 = .reject (some re)) ∧
    (∀ (env : Nat → AttemptEnv) (e : GError) (m : Int), 1 ≤ m →
      (env 0).beginResult = none → (env 0).work = .err e →
      (env 0).rollbackResult = none → isRetryableTransactionError e = false →
      (Transaction.runTransaction env m).1 = .reject (some e)) := by
  constructor
  · intro env e re m hm hb hw hr
    have h1 : m.toNat = (m.toNat - 1) + 1 := by omega
    have hrun : Transaction.runTransaction env m =
        runAux env 0 ⟨0⟩ none ((m.toNat - 1) + 1) := by
      rw [Transaction.runTransaction, ← h1]
    rw [hrun, runAux_rollback_fail env 0 ⟨0⟩ none _ e re hb hw hr]
  · intro env e m hm hb hw hr hret
    have h1 : m.toNat = (m.toNat - 1) + 1 := by omega
    have hrun : Transaction.runTransaction env m =
        runAux env 0 ⟨0⟩ none ((m.toNat - 1) + 1) := by
      rw [Transaction.runTransaction, ← h1]
    rw [hrun, runAux_stop_workerr env 0 ⟨0⟩ none _ e hb hw hr hret]

/-- Witness for C4's amended theorem at the concrete failing-rollback environment. -/
theorem C4_rollback_error_handling_witness :
    (Transaction.runTransaction c4Env 3).1 =
      .reject (some ⟨some Status.INTERNAL, "rollback failed"⟩) :=
  C4_rollback_error_handling.1 c4Env ⟨some Status.UNAVAILABLE, "server unavailable"⟩
    ⟨some Status.INTERNAL, "rollback failed"⟩ 3 (by decide) rfl rfl rfl

/-- Claim C5: for every run with at least one attempt, the wait before the very
first attempt has delay 0 (the fresh backoff policy's current interval — no actual
waiting), and every backoff wait after the first attempt delays by at least the
initial backoff delay. -/
theorem C5_no_backoff_before_first_attempt (env : Nat → AttemptEnv) (m : Int)
    (h : 1 ≤ m) :
    (Transaction.runTransaction env m).2.take 2 = [Ev.reset, Ev.backoffWait 0] ∧
    (∀ d : Nat, Ev.backoffWait d ∈ (Transaction.runTransaction env m).2.drop 2 →
      DEFAULT_BACKOFF_INITIAL_DELAY_MS ≤ d) := by
  have hm : m.toNat = (m.toNat - 1) + 1 := by omega
  have hrun : Transaction.runTransaction env m =
      runAux env 0 ⟨0⟩ none ((m.toNat - 1) + 1) := by
    rw [Transaction.runTransaction, ← hm]
  rw [hrun]
  have hw0 : Transaction.maybeBackoff ⟨0⟩ none =
      (0, ⟨DEFAULT_BACKOFF_INITIAL_DELAY_MS⟩) := rfl
  constructor
  · simp [runAux, hw0]
  · intro d hd
    simp only [runAux, hw0] at hd
    rcases hbe : (env 0).beginResult with _ | e
    · rcases hw : (env 0).work with _ | e | _
      · rcases hc : (env 0).commitResult with _ | e
        · simp [hbe, hw, hc] at hd
        · rcases hr : (env 0).rollbackResult with _ | re
          · rcases hret : isRetryableTransactionError e
            · simp [hbe, hw, hc, hr, hret] at hd
            · simp [hbe, hw, hc, hr, hret] at hd
              exact runAux_waits_ge env _ 1 _ (some e) (le_refl _) d hd
          · simp [hbe, hw, hc, hr] at hd
      · rcases hr : (env 0).rollbackResult with _ | re
        · rcases hret : isRetryableTransactionError e
          · simp [hbe, hw, hr, hret] at hd
          · simp [hbe, hw, hr, hret] at hd
            exact runAux_waits_ge env _ 1 _ (some e) (le_refl _) d hd
        · simp [hbe, hw, hr] at hd
      · rcases hr : (env 0).rollbackResult with _ | re
        · simp [hbe, hw, hr, isRetryableTransactionError, nonPromiseError] at hd
        · simp [hbe, hw, hr] at hd
    · simp [hbe] at hd

/-- An environment that succeeds on the first attempt. -/
def c5Env : Nat → AttemptEnv := fun _ => ⟨none, .resolved, none, none⟩

/-- Witness for C5: a one-attempt run starts with a zero-delay wait. -/
theorem C5_no_backoff_before_first_attempt_witness :
    (Transaction.runTransaction c5Env 1).2.take 2 = [Ev.reset, Ev.backoffWait 0] :=
  (C5_no_backoff_before_first_attempt c5Env 1 (by decide)).1

/-- Claim C7: when the previous attempt's error is coded RESOURCE_EXHAUSTED,
`maybeBackoff` resets the policy to its maximum delay before waiting (so the wait
is the maximum delay); for any other code, and when there is no previous error,
`resetToMax` is not invoked and the wait is the policy's normal next interval. -/
theorem C7_resource_exhausted_backoff (b : ExponentialBackoff) (e : GError) :
    (e.code = some Status.RESOURCE_EXHAUSTED →
      Transaction.maybeBackoff b (some e) =
        (ExponentialBackoff.resetToMax b).backoffAndWait ∧
      (Transaction.maybeBackoff b (some e)).1 = DEFAULT_BACKOFF_MAX_DELAY_MS) ∧
    (e.code ≠ some Status.RESOURCE_EXHAUSTED →
      Transaction.maybeBackoff b (some e) = b.backoffAndWait) ∧
    Transaction.maybeBackoff b none = b.backoffAndWait := by
  refine ⟨?_, ?_, rfl⟩
  · intro h
    have h1 : Transaction.maybeBackoff b (some e) =
        (ExponentialBackoff.resetToMax b).backoffAndWait := by
      simp [Transaction.maybeBackoff, h]
    rw [h1]
    exact ⟨rfl, rfl⟩
  · intro h
    simp [Transaction.maybeBackoff, h]

/-- Witness for C7: a RESOURCE_EXHAUSTED previous error forces the maximum delay. -/
theorem C7_resource_exhausted_backoff_witness :
    (Transaction.maybeBackoff ⟨0⟩
        (some ⟨some Status.RESOURCE_EXHAUSTED, "quota exceeded"⟩)).1 =
      DEFAULT_BACKOFF_MAX_DELAY_MS :=
  ((C7_resource_exhausted_backoff ⟨0⟩
      ⟨some Status.RESOURCE_EXHAUSTED, "quota exceeded"⟩).1 rfl).2

/-- Claim C8: a work function that returns a plain non-promise value makes
`runTransaction` reject with the local usage error (the spec's `InvalidArgument`
class: it carries no RPC status code and is never retried), and no commit RPC is
ever attempted. -/
theorem C8_nonpromise_work (env : Nat → AttemptEnv) (m : Int) (hm : 1 ≤ m)
    (hb : (env 0).beginResult = none) (hw : (env 0).work = .nonPromise)
    (hr : (env 0).rollbackResult = none) :
    (Transaction.runTransaction env m).1 = .reject (some nonPromiseError) ∧
    (Transaction.runTransaction env m).2.count .commitRpc = 0 ∧
    nonPromiseError.code = none := by
  have h1 : m.toNat = (m.toNat - 1) + 1 := by omega
  have hrun : Transaction.runTransaction env m =
      runAux env 0 ⟨0⟩ none ((m.toNat - 1) + 1) := by
    rw [Transaction.runTransaction, ← h1]
  rw [hrun, runAux_nonpromise env 0 ⟨0⟩ none _ hb hw hr]
  exact ⟨rfl, by decide, rfl⟩

/-- An environment whose work function returns a plain value. -/
def c8Env : Nat → AttemptEnv := fun _ => ⟨none, .nonPromise, none, none⟩

/-- Witness for C8 at a concrete non-promise environment. -/
theorem C8_nonpromise_work_witness :
    (Transaction.runTransaction c8Env 5).1 = .reject (some nonPromiseError) :=
  (C8_nonpromise_work c8Env 5 (by decide) rfl rfl rfl).1

/-- Claim C10: for every `maxAttempts ≤ 0` the loop body never runs: no RPC is
issued, the work function is never invoked (the event trace is empty), and the
returned promise rejects with the never-assigned `lastError`, i.e. `undefined`. -/
theorem C10_nonpositive_max_attempts (env : Nat → AttemptEnv) (m : Int)
    (hm : m ≤ 0) :
    Transaction.runTransaction env m = (.reject none, []) := by
  have h0 : m.toNat = 0 := by omega
  rw [Transaction.runTransaction, h0]
  rfl

/-- An arbitrary environment for the zero-attempt run. -/
def c10Env : Nat → AttemptEnv := fun _ => ⟨none, .resolved, none, none⟩

/-- Witness for C10 at `maxAttempts = 0`. -/
theorem C10_nonpositive_max_attempts_witness :
    Transaction.runTransaction c10Env 0 = (.reject none, []) :=
  C10_nonpositive_max_attempts c10Env 0 (by decide)

end FirestoreTx
